import Mathlib

/-
Verification development for the agent-browser CLI (Rust sources under
src/cli/src/).  The command translator (commands.rs) and the daemon
supervisor / request dispatcher (connection.rs) are shallowly embedded
below; IO steps of the supervisor are abstracted into an explicit
environment record and an effect trace.
-/

set_option maxHeartbeats 4000000
set_option maxRecDepth 16384

namespace AgentBrowser

/-- Stand-in for Rust `f64`.  The only command that parses a float is
`set geo`; no claim inspects the parsed value, so the `f64` parser is
passed to the translator as an explicit parameter (`pf`) and every
theorem is quantified over it. -/
def F64 : Type := Nat

/-- JSON values as built by the translator (commands.rs).  `num` holds the
integer cases (`i32` / `u64`), `fnum` the `f64` case.  Objects are flat
association lists in insertion order; no branch of the translator inserts
a duplicate key. -/
inductive JVal where
  | null : JVal
  | bool : Bool → JVal
  | num : Int → JVal
  | fnum : F64 → JVal
  | str : String → JVal
  | arr : List JVal → JVal
  | obj : List (String × JVal) → JVal

/-- An action request: the flat top-level JSON map of a command. -/
abbrev Request := List (String × JVal)

/-- Rust `Option<&str>` rendered into JSON: `None` serializes as `null`. -/
def jOptStr : Option String → JVal
  | none => JVal.null
  | some s => JVal.str s

/-- One decimal digit of a numeric literal. -/
def decDigit? (c : Char) : Option Nat :=
  if c.isDigit then some (c.toNat - 48) else none

/-- Accumulating digit run: fails on any non-digit character. -/
def digitsAcc : Nat → List Char → Option Nat
  | acc, [] => some acc
  | acc, c :: cs =>
    match decDigit? c with
    | some d => digitsAcc (acc * 10 + d) cs
    | none => none

/-- A non-empty all-digit run, as a natural number. -/
def digitsToNat? : List Char → Option Nat
  | [] => none
  | l => digitsAcc 0 l

/-- Character-level prefix test, the model of Rust `str::starts_with`. -/
def str_starts_with (s pat : String) : Bool :=
  pat.toList.isPrefixOf s.toList

/-- Does `needle` occur as a contiguous run inside `hay`? -/
def chars_contain (hay needle : List Char) : Bool :=
  needle.isPrefixOf hay ||
    match hay with
    | [] => false
    | _ :: t => chars_contain t needle

/-- The model of Rust `str::contains` with a string pattern. -/
def str_contains (s pat : String) : Bool :=
  chars_contain s.toList pat.toList

/-- Rust `str::parse::<u64>()`: optional leading `+`, at least one digit,
no other characters, value below 2^64 (overflow is an error). -/
def rust_parse_u64 (s : String) : Option Nat :=
  let core :=
    match s.toList with
    | '+' :: cs => digitsToNat? cs
    | cs => digitsToNat? cs
  match core with
  | some n => if n < 2 ^ 64 then some n else none
  | none => none

/-- Rust `str::parse::<i32>()`: optional sign, digits, two's-complement
range `[-2^31, 2^31 - 1]`. -/
def rust_parse_i32 (s : String) : Option Int :=
  match s.toList with
  | '+' :: cs =>
    (digitsToNat? cs).bind fun n =>
      if n ≤ 2 ^ 31 - 1 then some (Int.ofNat n) else none
  | '-' :: cs =>
    (digitsToNat? cs).bind fun n =>
      if n ≤ 2 ^ 31 then some (-(Int.ofNat n)) else none
  | cs =>
    (digitsToNat? cs).bind fun n =>
      if n ≤ 2 ^ 31 - 1 then some (Int.ofNat n) else none

/-- Global option bag of the translator (struct `Flags`, fields used by
parse_command in commands.rs; only `full` influences a request). -/
structure Flags where
  session : String
  json : Bool
  full : Bool
  headed : Bool
  debug : Bool

/-- Model of `serde_json::Map::insert`: replace the value when the key is present,
else append the pair. -/
def objInsert : Request → String → JVal → Request
  | [], k, v => [(k, v)]
  | (k', v') :: rest, k, v =>
    if k' = k then (k', v) :: rest else (k', v') :: objInsert rest k v

/-- The token-scanning `while` loop of the `snapshot` branch
(commands.rs): `-i`/`-c` set booleans, `-d`/`-s` consume a following
value token when one is available (an unparsable depth consumes only the
flag token). -/
def snapshot_loop : Request → List String → Request
  | o, [] => o
  | o, t :: rest =>
    if t = "-i" ∨ t = "--interactive" then
      snapshot_loop (objInsert o "interactive" (JVal.bool true)) rest
    else if t = "-c" ∨ t = "--compact" then
      snapshot_loop (objInsert o "compact" (JVal.bool true)) rest
    else if t = "-d" ∨ t = "--depth" then
      match rest with
      | [] => snapshot_loop o []
      | d :: rest2 =>
        match rust_parse_i32 d with
        | some n => snapshot_loop (objInsert o "maxDepth" (JVal.num n)) rest2
        | none => snapshot_loop o (d :: rest2)
    else if t = "-s" ∨ t = "--selector" then
      match rest with
      | [] => snapshot_loop o []
      | s :: rest2 => snapshot_loop (objInsert o "selector" (JVal.str s)) rest2
    else
      snapshot_loop o rest

/-- Function `parse_find` (commands.rs): semantic locators.  `rest` excludes the
`find` verb itself. -/
def parse_find (rest : List String) (id : String) : Option Request :=
  match rest[0]? with
  | none => none
  | some locator =>
  match rest[1]? with
  | none => none
  | some value =>
  let subaction := (rest[2]?).getD "click"
  let fill_value : Option String :=
    if rest.length > 3 then some (String.intercalate " " (rest.drop 3)) else none
  let name_idx := rest.findIdx? (fun s => s = "--name")
  let name := name_idx.bind fun i => rest[i + 1]?
  let exact := rest.any (fun s => s = "--exact")
  match locator with
  | "role" => some [("id", JVal.str id), ("action", JVal.str "getbyrole"),
      ("role", JVal.str value), ("subaction", JVal.str subaction),
      ("value", jOptStr fill_value), ("name", jOptStr name), ("exact", JVal.bool exact)]
  | "text" => some [("id", JVal.str id), ("action", JVal.str "getbytext"),
      ("text", JVal.str value), ("subaction", JVal.str subaction), ("exact", JVal.bool exact)]
  | "label" => some [("id", JVal.str id), ("action", JVal.str "getbylabel"),
      ("label", JVal.str value), ("subaction", JVal.str subaction),
      ("value", jOptStr fill_value), ("exact", JVal.bool exact)]
  | "placeholder" => some [("id", JVal.str id), ("action", JVal.str "getbyplaceholder"),
      ("placeholder", JVal.str value), ("subaction", JVal.str subaction),
      ("value", jOptStr fill_value), ("exact", JVal.bool exact)]
  | "alt" => some [("id", JVal.str id), ("action", JVal.str "getbyalttext"),
      ("text", JVal.str value), ("subaction", JVal.str subaction), ("exact", JVal.bool exact)]
  | "title" => some [("id", JVal.str id), ("action", JVal.str "getbytitle"),
      ("text", JVal.str value), ("subaction", JVal.str subaction), ("exact", JVal.bool exact)]
  | "testid" => some [("id", JVal.str id), ("action", JVal.str "getbytestid"),
      ("testId", JVal.str value), ("subaction", JVal.str subaction),
      ("value", jOptStr fill_value)]
  | "first" => some [("id", JVal.str id), ("action", JVal.str "nth"),
      ("selector", JVal.str value), ("index", JVal.num 0),
      ("subaction", JVal.str subaction), ("value", jOptStr fill_value)]
  | "last" => some [("id", JVal.str id), ("action", JVal.str "nth"),
      ("selector", JVal.str value), ("index", JVal.num (-1)),
      ("subaction", JVal.str subaction), ("value", jOptStr fill_value)]
  | "nth" =>
    match rust_parse_i32 value with
    | none => none
    | some idx =>
      match rest[2]? with
      | none => none
      | some sel =>
        let sub := (rest[3]?).getD "click"
        let fv : Option String :=
          if rest.length > 4 then some (String.intercalate " " (rest.drop 4)) else none
        some [("id", JVal.str id), ("action", JVal.str "nth"),
          ("selector", JVal.str sel), ("index", JVal.num idx),
          ("subaction", JVal.str sub), ("value", jOptStr fv)]
  | _ => none

/-- Function `parse_set` (commands.rs): browser settings.  `pf` is the abstract
`f64` parser used by the geolocation branch. -/
def parse_set (pf : String → Option F64) (rest : List String) (id : String) :
    Option Request :=
  match rest[0]? with
  | some "viewport" =>
    match rest[1]? with
    | none => none
    | some ws =>
    match rust_parse_i32 ws with
    | none => none
    | some w =>
    match rest[2]? with
    | none => none
    | some hs =>
    match rust_parse_i32 hs with
    | none => none
    | some h =>
      some [("id", JVal.str id), ("action", JVal.str "viewport"),
        ("width", JVal.num w), ("height", JVal.num h)]
  | some "device" =>
    match rest[1]? with
    | none => none
    | some d => some [("id", JVal.str id), ("action", JVal.str "device"),
        ("device", JVal.str d)]
  | some "geo" | some "geolocation" =>
    match rest[1]? with
    | none => none
    | some lats =>
    match pf lats with
    | none => none
    | some lat =>
    match rest[2]? with
    | none => none
    | some lngs =>
    match pf lngs with
    | none => none
    | some lng =>
      some [("id", JVal.str id), ("action", JVal.str "geolocation"),
        ("latitude", JVal.fnum lat), ("longitude", JVal.fnum lng)]
  | some "offline" =>
    let off := ((rest[1]?).map fun s => decide (s ≠ "off") && decide (s ≠ "false")).getD true
    some [("id", JVal.str id), ("action", JVal.str "offline"), ("offline", JVal.bool off)]
  | some "headers" =>
    match rest[1]? with
    | none => none
    | some hj => some [("id", JVal.str id), ("action", JVal.str "headers"),
        ("headers", JVal.str hj)]
  | some "credentials" | some "auth" =>
    match rest[1]? with
    | none => none
    | some u =>
    match rest[2]? with
    | none => none
    | some p =>
      some [("id", JVal.str id), ("action", JVal.str "credentials"),
        ("username", JVal.str u), ("password", JVal.str p)]
  | some "media" =>
    let color := if rest.any (fun s => s = "dark") then "dark"
      else if rest.any (fun s => s = "light") then "light"
      else "no-preference"
    let reduced := rest.any (fun s => s = "reduced-motion")
    some [("id", JVal.str id), ("action", JVal.str "media"),
      ("colorScheme", JVal.str color), ("reducedMotion", JVal.bool reduced)]
  | _ => none

/-- Function `parse_command` (commands.rs): the command translator.  The impure
correlation id (`gen_id`, a clock read) is threaded in as the explicit
argument `id`; each branch places it first in the request, exactly as the
source's `json!` literals do. -/
def parse_command (pf : String → Option F64) (args : List String)
    (flags : Flags) (id : String) : Option Request :=
  match args with
  | [] => none
  | cmd :: rest =>
    match cmd with
    | "open" | "goto" | "navigate" =>
      match rest[0]? with
      | none => none
      | some url =>
        let url2 := if str_starts_with url "http" then url else "https://" ++ url
        some [("id", JVal.str id), ("action", JVal.str "navigate"), ("url", JVal.str url2)]
    | "back" => some [("id", JVal.str id), ("action", JVal.str "back")]
    | "forward" => some [("id", JVal.str id), ("action", JVal.str "forward")]
    | "reload" => some [("id", JVal.str id), ("action", JVal.str "reload")]
    | "click" =>
      match rest[0]? with
      | none => none
      | some sel => some [("id", JVal.str id), ("action", JVal.str "click"),
          ("selector", JVal.str sel)]
    | "dblclick" =>
      match rest[0]? with
      | none => none
      | some sel => some [("id", JVal.str id), ("action", JVal.str "dblclick"),
          ("selector", JVal.str sel)]
    | "fill" =>
      match rest[0]? with
      | none => none
      | some sel => some [("id", JVal.str id), ("action", JVal.str "fill"),
          ("selector", JVal.str sel),
          ("value", JVal.str (String.intercalate " " (rest.drop 1)))]
    | "type" =>
      match rest[0]? with
      | none => none
      | some sel => some [("id", JVal.str id), ("action", JVal.str "type"),
          ("selector", JVal.str sel),
          ("text", JVal.str (String.intercalate " " (rest.drop 1)))]
    | "hover" =>
      match rest[0]? with
      | none => none
      | some sel => some [("id", JVal.str id), ("action", JVal.str "hover"),
          ("selector", JVal.str sel)]
    | "focus" =>
      match rest[0]? with
      | none => none
      | some sel => some [("id", JVal.str id), ("action", JVal.str "focus"),
          ("selector", JVal.str sel)]
    | "check" =>
      match rest[0]? with
      | none => none
      | some sel => some [("id", JVal.str id), ("action", JVal.str "check"),
          ("selector", JVal.str sel)]
    | "uncheck" =>
      match rest[0]? with
      | none => none
      | some sel => some [("id", JVal.str id), ("action", JVal.str "uncheck"),
          ("selector", JVal.str sel)]
    | "select" =>
      match rest[0]? with
      | none => none
      | some sel =>
      match rest[1]? with
      | none => none
      | some v => some [("id", JVal.str id), ("action", JVal.str "select"),
          ("selector", JVal.str sel), ("value", JVal.str v)]
    | "drag" =>
      match rest[0]? with
      | none => none
      | some src =>
      match rest[1]? with
      | none => none
      | some tgt => some [("id", JVal.str id), ("action", JVal.str "drag"),
          ("source", JVal.str src), ("target", JVal.str tgt)]
    | "upload" =>
      match rest[0]? with
      | none => none
      | some sel => some [("id", JVal.str id), ("action", JVal.str "upload"),
          ("selector", JVal.str sel), ("files", JVal.arr ((rest.drop 1).map JVal.str))]
    | "press" | "key" =>
      match rest[0]? with
      | none => none
      | some k => some [("id", JVal.str id), ("action", JVal.str "press"),
          ("key", JVal.str k)]
    | "keydown" =>
      match rest[0]? with
      | none => none
      | some k => some [("id", JVal.str id), ("action", JVal.str "keydown"),
          ("key", JVal.str k)]
    | "keyup" =>
      match rest[0]? with
      | none => none
      | some k => some [("id", JVal.str id), ("action", JVal.str "keyup"),
          ("key", JVal.str k)]
    | "scroll" =>
      let dir := (rest[0]?).getD "down"
      let amount := ((rest[1]?).bind rust_parse_i32).getD 300
      some [("id", JVal.str id), ("action", JVal.str "scroll"),
        ("direction", JVal.str dir), ("amount", JVal.num amount)]
    | "scrollintoview" | "scrollinto" =>
      match rest[0]? with
      | none => none
      | some sel => some [("id", JVal.str id), ("action", JVal.str "scrollintoview"),
          ("selector", JVal.str sel)]
    | "wait" =>
      match rest[0]? with
      | none => none
      | some arg =>
        match rust_parse_u64 arg with
        | some n => some [("id", JVal.str id), ("action", JVal.str "wait"),
            ("timeout", JVal.num (Int.ofNat n))]
        | none => some [("id", JVal.str id), ("action", JVal.str "wait"),
            ("selector", JVal.str arg)]
    | "screenshot" =>
      some [("id", JVal.str id), ("action", JVal.str "screenshot"),
        ("path", jOptStr (rest[0]?)), ("fullPage", JVal.bool flags.full)]
    | "pdf" =>
      match rest[0]? with
      | none => none
      | some p => some [("id", JVal.str id), ("action", JVal.str "pdf"),
          ("path", JVal.str p)]
    | "snapshot" =>
      some (snapshot_loop [("id", JVal.str id), ("action", JVal.str "snapshot")] rest)
    | "eval" =>
      some [("id", JVal.str id), ("action", JVal.str "evaluate"),
        ("script", JVal.str (String.intercalate " " rest))]
    | "close" | "quit" | "exit" => some [("id", JVal.str id), ("action", JVal.str "close")]
    | "get" =>
      match rest[0]? with
      | some "text" =>
        match rest[1]? with
        | none => none
        | some sel => some [("id", JVal.str id), ("action", JVal.str "gettext"),
            ("selector", JVal.str sel)]
      | some "html" =>
        match rest[1]? with
        | none => none
        | some sel => some [("id", JVal.str id), ("action", JVal.str "innerhtml"),
            ("selector", JVal.str sel)]
      | some "value" =>
        match rest[1]? with
        | none => none
        | some sel => some [("id", JVal.str id), ("action", JVal.str "inputvalue"),
            ("selector", JVal.str sel)]
      | some "attr" =>
        match rest[1]? with
        | none => none
        | some sel =>
        match rest[2]? with
        | none => none
        | some a => some [("id", JVal.str id), ("action", JVal.str "getattribute"),
            ("selector", JVal.str sel), ("attribute", JVal.str a)]
      | some "url" => some [("id", JVal.str id), ("action", JVal.str "url")]
      | some "title" => some [("id", JVal.str id), ("action", JVal.str "title")]
      | some "count" =>
        match rest[1]? with
        | none => none
        | some sel => some [("id", JVal.str id), ("action", JVal.str "count"),
            ("selector", JVal.str sel)]
      | some "box" =>
        match rest[1]? with
        | none => none
        | some sel => some [("id", JVal.str id), ("action", JVal.str "boundingbox"),
            ("selector", JVal.str sel)]
      | _ => none
    | "is" =>
      match rest[0]? with
      | some "visible" =>
        match rest[1]? with
        | none => none
        | some sel => some [("id", JVal.str id), ("action", JVal.str "isvisible"),
            ("selector", JVal.str sel)]
      | some "enabled" =>
        match rest[1]? with
        | none => none
        | some sel => some [("id", JVal.str id), ("action", JVal.str "isenabled"),
            ("selector", JVal.str sel)]
      | some "checked" =>
        match rest[1]? with
        | none => none
        | some sel => some [("id", JVal.str id), ("action", JVal.str "ischecked"),
            ("selector", JVal.str sel)]
      | _ => none
    | "find" => parse_find rest id
    | "mouse" =>
      match rest[0]? with
      | some "move" =>
        match rest[1]? with
        | none => none
        | some xs =>
        match rust_parse_i32 xs with
        | none => none
        | some x =>
        match rest[2]? with
        | none => none
        | some ys =>
        match rust_parse_i32 ys with
        | none => none
        | some y =>
          some [("id", JVal.str id), ("action", JVal.str "mousemove"),
            ("x", JVal.num x), ("y", JVal.num y)]
      | some "down" =>
        some [("id", JVal.str id), ("action", JVal.str "mousedown"),
          ("button", JVal.str ((rest[1]?).getD "left"))]
      | some "up" =>
        some [("id", JVal.str id), ("action", JVal.str "mouseup"),
          ("button", JVal.str ((rest[1]?).getD "left"))]
      | some "wheel" =>
        let dy := ((rest[1]?).bind rust_parse_i32).getD 100
        let dx := ((rest[2]?).bind rust_parse_i32).getD 0
        some [("id", JVal.str id), ("action", JVal.str "mousewheel"),
          ("deltaX", JVal.num dx), ("deltaY", JVal.num dy)]
      | _ => none
    | "set" => parse_set pf rest id
    | "network" =>
      match rest[0]? with
      | some "route" =>
        match rest[1]? with
        | none => none
        | some url =>
          let abort := rest.any (fun s => s = "--abort")
          let body_idx := rest.findIdx? (fun s => s = "--body")
          let body := body_idx.bind fun i => rest[i + 1]?
          some [("id", JVal.str id), ("action", JVal.str "route"),
            ("url", JVal.str url), ("abort", JVal.bool abort), ("body", jOptStr body)]
      | some "unroute" =>
        some [("id", JVal.str id), ("action", JVal.str "unroute"),
          ("url", jOptStr (rest[1]?))]
      | some "requests" =>
        let clear := rest.any (fun s => s = "--clear")
        let filter_idx := rest.findIdx? (fun s => s = "--filter")
        let filter := filter_idx.bind fun i => rest[i + 1]?
        some [("id", JVal.str id), ("action", JVal.str "requests"),
          ("clear", JVal.bool clear), ("filter", jOptStr filter)]
      | _ => none
    | "storage" =>
      match rest[0]? with
      | none => none
      | some t =>
        if t = "local" ∨ t = "session" then
          let op := (rest[1]?).getD "get"
          let key := rest[2]?
          let value := rest[3]?
          match op with
          | "set" =>
            match key with
            | none => none
            | some k =>
            match value with
            | none => none
            | some v =>
              some [("id", JVal.str id), ("action", JVal.str "storage_set"),
                ("type", JVal.str t), ("key", JVal.str k), ("value", JVal.str v)]
          | "clear" =>
            some [("id", JVal.str id), ("action", JVal.str "storage_clear"),
              ("type", JVal.str t)]
          | _ =>
            let base := [("id", JVal.str id), ("action", JVal.str "storage_get"),
              ("type", JVal.str t)]
            match key with
            | some k => some (objInsert base "key" (JVal.str k))
            | none => some base
        else none
    | "cookies" =>
      match (rest[0]?).getD "get" with
      | "set" =>
        match rest[1]? with
        | none => none
        | some nm =>
        match rest[2]? with
        | none => none
        | some v =>
          some [("id", JVal.str id), ("action", JVal.str "cookies_set"),
            ("cookies", JVal.arr [JVal.obj [("name", JVal.str nm), ("value", JVal.str v)]])]
      | "clear" => some [("id", JVal.str id), ("action", JVal.str "cookies_clear")]
      | _ => some [("id", JVal.str id), ("action", JVal.str "cookies_get")]
    | "tab" =>
      match rest[0]? with
      | some t =>
        if t = "new" then
          some [("id", JVal.str id), ("action", JVal.str "tab_new"),
            ("url", jOptStr (rest[1]?))]
        else if t = "list" then
          some [("id", JVal.str id), ("action", JVal.str "tab_list")]
        else if t = "close" then
          let idx := (rest[1]?).bind rust_parse_i32
          some [("id", JVal.str id), ("action", JVal.str "tab_close"),
            ("index", match idx with | some n => JVal.num n | none => JVal.null)]
        else
          match rust_parse_i32 t with
          | some n => some [("id", JVal.str id), ("action", JVal.str "tab_switch"),
              ("index", JVal.num n)]
          | none => some [("id", JVal.str id), ("action", JVal.str "tab_list")]
      | none => some [("id", JVal.str id), ("action", JVal.str "tab_list")]
    | "window" =>
      match rest[0]? with
      | some "new" => some [("id", JVal.str id), ("action", JVal.str "window_new")]
      | _ => none
    | "frame" =>
      if rest[0]? = some "main" then
        some [("id", JVal.str id), ("action", JVal.str "frame_main")]
      else
        match rest[0]? with
        | none => none
        | some sel => some [("id", JVal.str id), ("action", JVal.str "frame"),
            ("selector", JVal.str sel)]
    | "dialog" =>
      match rest[0]? with
      | some "accept" =>
        some [("id", JVal.str id), ("action", JVal.str "dialog"),
          ("response", JVal.str "accept"), ("promptText", jOptStr (rest[1]?))]
      | some "dismiss" =>
        some [("id", JVal.str id), ("action", JVal.str "dialog"),
          ("response", JVal.str "dismiss")]
      | _ => none
    | "trace" =>
      match rest[0]? with
      | some "start" => some [("id", JVal.str id), ("action", JVal.str "trace_start"),
          ("path", jOptStr (rest[1]?))]
      | some "stop" => some [("id", JVal.str id), ("action", JVal.str "trace_stop"),
          ("path", jOptStr (rest[1]?))]
      | _ => none
    | "console" =>
      some [("id", JVal.str id), ("action", JVal.str "console"),
        ("clear", JVal.bool (rest.any (fun s => s = "--clear")))]
    | "errors" =>
      some [("id", JVal.str id), ("action", JVal.str "errors"),
        ("clear", JVal.bool (rest.any (fun s => s = "--clear")))]
    | "highlight" =>
      match rest[0]? with
      | none => none
      | some sel => some [("id", JVal.str id), ("action", JVal.str "highlight"),
          ("selector", JVal.str sel)]
    | "state" =>
      match rest[0]? with
      | some "save" =>
        match rest[1]? with
        | none => none
        | some p => some [("id", JVal.str id), ("action", JVal.str "state_save"),
            ("path", JVal.str p)]
      | some "load" =>
        match rest[1]? with
        | none => none
        | some p => some [("id", JVal.str id), ("action", JVal.str "state_load"),
            ("path", JVal.str p)]
      | _ => none
    | _ => none

/-- A trivial instance of the abstract `f64` parser, used by concrete
witnesses (no witness exercises the geolocation branch). -/
def pf0 : String → Option F64 := fun _ => none

/-- Concrete global options for witnesses. -/
def flags0 : Flags := ⟨"default", false, false, false, false⟩

example : parse_command pf0 ["open", "example.com"] flags0 "r1" =
    some [("id", JVal.str "r1"), ("action", JVal.str "navigate"),
      ("url", JVal.str "https://example.com")] := by rfl

example : parse_command pf0 ["wait", "500"] flags0 "r1" =
    some [("id", JVal.str "r1"), ("action", JVal.str "wait"),
      ("timeout", JVal.num 500)] := by rfl

example : parse_command pf0 ["storage", "local", "set", "k"] flags0 "r1" = none := by rfl

example : parse_command pf0 ["scroll", "down", "abc"] flags0 "r1" =
    some [("id", JVal.str "r1"), ("action", JVal.str "scroll"),
      ("direction", JVal.str "down"), ("amount", JVal.num 300)] := by rfl

example : parse_command pf0 ["find", "nth", "2"] flags0 "r1" = none := by rfl

example : parse_command pf0 ["find", "role", "button"] flags0 "r1" =
    some [("id", JVal.str "r1"), ("action", JVal.str "getbyrole"),
      ("role", JVal.str "button"), ("subaction", JVal.str "click"),
      ("value", JVal.null), ("name", JVal.null), ("exact", JVal.bool false)] := by rfl

/-- One request/response exchange outcome (struct `Response` in
connection.rs). -/
structure Response where
  success : Bool
  data : Option JVal
  error : Option String

/-- Function `is_transient_error` (connection.rs): the closed set of transient
transport signatures eligible for retry. -/
def is_transient_error (error : String) : Bool :=
  str_contains error "os error 35"
    || str_contains error "os error 11"
    || str_contains error "WouldBlock"
    || str_contains error "Resource temporarily unavailable"
    || str_contains error "EOF"
    || str_contains error "line 1 column 0"
    || str_contains error "Connection reset"
    || str_contains error "Broken pipe"
    || str_contains error "os error 54"
    || str_contains error "os error 104"
    || str_contains error "os error 2"
    || str_contains error "os error 61"
    || str_contains error "os error 111"

/-- Constant `MAX_RETRIES` (connection.rs, send_command). -/
def MAX_RETRIES : Nat := 5

/-- Constant `RETRY_DELAY_MS` (connection.rs, send_command): base of the linear
backoff (the sleep itself has no observable effect in the model). -/
def RETRY_DELAY_MS : Nat := 200

/-- The retry loop of `send_command` (connection.rs).  `oracle n` is the
outcome of the `n`-th call to `send_command_once`; `attempt` and
`last_error` mirror the loop state. -/
def send_command_go (oracle : Nat → Except String Response)
    (attempt : Nat) (last_error : String) : Except String Response :=
  if _h : attempt < MAX_RETRIES then
    match oracle attempt with
    | Except.ok r => Except.ok r
    | Except.error e =>
      if is_transient_error e then send_command_go oracle (attempt + 1) e
      else Except.error e
  else
    Except.error (last_error ++ " (after " ++ toString MAX_RETRIES ++
      " retries - daemon may be busy or unresponsive)")
termination_by MAX_RETRIES - attempt

/-- Function `send_command` (connection.rs): one logical request with bounded,
classified retries. -/
def send_command (oracle : Nat → Except String Response) :
    Except String Response :=
  send_command_go oracle 0 ""

/-- Observable side effects of `ensure_daemon` (connection.rs), in
program order. -/
inductive Effect where
  | cleanupStaleFiles : Effect
  | createDir : Effect
  | writeProbe : Effect
  | spawnDaemon : Effect
deriving DecidableEq

/-- The environment `ensure_daemon` (connection.rs) runs against: results
of its probes and IO steps.  `markerLive` is `is_daemon_running` (pid
marker exists and the process answers signal 0), `readyFirst` and
`readyRecheck` the two `daemon_ready` connection probes around the 150 ms
sleep, `readyPoll n` the probe during the `n`-th post-spawn polling
iteration.  The daemon-program path search is condensed into
`daemonFound` (first existing candidate path or the fatal error). -/
structure EnsureEnv where
  markerLive : Bool
  readyFirst : Bool
  readyRecheck : Bool
  socketDir : String
  dirExists : Bool
  createDirOk : Bool
  createDirErr : String
  writeTestOk : Bool
  writeTestErr : String
  currentExeOk : Bool
  currentExeErr : String
  daemonFound : Bool
  spawnOk : Bool
  spawnErr : String
  readyPoll : Nat → Bool

/-- Function `get_socket_path` (connection.rs): `<dir>/<session>.sock`. -/
def socket_path (env : EnsureEnv) (session : String) : String :=
  env.socketDir ++ "/" ++ session ++ ".sock"

/-- The "too long" diagnostic of the socket-path preflight check
(connection.rs, ensure_daemon). -/
def socket_path_too_long_msg (session : String) (path_len : Nat) : String :=
  "Session name '" ++ session ++ "' is too long. Socket path would be " ++
    toString path_len ++ " bytes (max 103).\n" ++
    "Use a shorter session name or set AGENT_BROWSER_SOCKET_DIR to a shorter path."

/-- Result of `ensure_daemon`: whether an existing worker was reused. -/
structure DaemonResult where
  already_running : Bool

/-- The delay before the second `daemon_ready` probe (connection.rs:
`thread::sleep(Duration::from_millis(150))`). -/
def recheck_delay_ms : Nat := 150

/-- The worker's own shutdown grace period (connection.rs comment: "daemon
has a 100ms shutdown delay, so we wait longer"). -/
def shutdown_grace_ms : Nat := 100

/-- The clean-and-respawn tail of `ensure_daemon` (connection.rs):
stale-file cleanup, directory creation, the socket-path-length and
writability preflights, the daemon-program search, the detached spawn and
the bounded readiness poll (50 attempts at 100 ms).  Returns the result
together with the trace of side effects performed. -/
def ensure_daemon_start (session : String) (env : EnsureEnv) :
    Except String DaemonResult × List Effect :=
  let tr0 := [Effect.cleanupStaleFiles]
  let tr1 := tr0 ++ if env.dirExists then [] else [Effect.createDir]
  if ¬ env.dirExists ∧ ¬ env.createDirOk then
    (Except.error ("Failed to create socket directory: " ++ env.createDirErr), tr1)
  else
    let path_len := (socket_path env session).utf8ByteSize
    if path_len > 103 then
      (Except.error (socket_path_too_long_msg session path_len), tr1)
    else
      let tr2 := tr1 ++ [Effect.writeProbe]
      if ¬ env.writeTestOk then
        (Except.error ("Socket directory '" ++ env.socketDir ++
          "' is not writable: " ++ env.writeTestErr), tr2)
      else if ¬ env.currentExeOk then
        (Except.error env.currentExeErr, tr2)
      else if ¬ env.daemonFound then
        (Except.error ("Daemon not found. Set AGENT_BROWSER_HOME environment " ++
          "variable or run from project directory."), tr2)
      else
        let tr3 := tr2 ++ [Effect.spawnDaemon]
        if ¬ env.spawnOk then
          (Except.error ("Failed to start daemon: " ++ env.spawnErr), tr3)
        else if (List.range 50).any env.readyPoll then
          (Except.ok ⟨false⟩, tr3)
        else
          (Except.error ("Daemon failed to start (socket: " ++
            socket_path env session ++ ")"), tr3)

/-- Function `ensure_daemon` (connection.rs): reuse a live responsive worker
(double-checked after the 150 ms recheck delay), otherwise clean stale
artifacts and start a fresh one. -/
def ensure_daemon (session : String) (env : EnsureEnv) :
    Except String DaemonResult × List Effect :=
  if env.markerLive ∧ env.readyFirst then
    if env.readyRecheck then (Except.ok ⟨true⟩, [])
    else ensure_daemon_start session env
  else ensure_daemon_start session env

/-- A fully cooperative environment for witnesses. -/
def envOk : EnsureEnv :=
  ⟨true, true, true, "/tmp/agent-browser", true, true, "", true, "", true, "",
    true, true, "", fun _ => true⟩

example : ensure_daemon "default" envOk = (Except.ok ⟨true⟩, []) := by rfl

example : is_transient_error "Permission denied" = false := by rfl

example : is_transient_error "Failed to send: Broken pipe (os error 32)" = true := by rfl

/-- C3 counterexample: the target `http.cat` is a domain with no URL
scheme at all (it contains no colon), yet the navigation branch passes it
through unchanged instead of prefixing `https://`, because the code only
tests the literal prefix `http`. -/
theorem navigate_counterexample :
    parse_command pf0 ["open", "http.cat"] flags0 "r1" =
      some [("id", JVal.str "r1"), ("action", JVal.str "navigate"),
        ("url", JVal.str "http.cat")] ∧
    "http.cat".toList.contains ':' = false ∧
    ("http.cat" : String) ≠ "https://" ++ "http.cat" := by
  refine ⟨by rfl, by rfl, by decide⟩

/-- C3 (amended): for every navigation verb (`open`/`goto`/`navigate`),
a target not starting with the literal token `http` is prefixed with
`https://`, and a target starting with `http` (which covers `http://` and
`https://` URLs) is passed through unchanged. -/
theorem navigate_url_normalization (pf : String → Option F64) (flags : Flags)
    (id t : String) :
    parse_command pf ["open", t] flags id =
      some [("id", JVal.str id), ("action", JVal.str "navigate"),
        ("url", JVal.str (if str_starts_with t "http" then t else "https://" ++ t))] ∧
    parse_command pf ["goto", t] flags id =
      some [("id", JVal.str id), ("action", JVal.str "navigate"),
        ("url", JVal.str (if str_starts_with t "http" then t else "https://" ++ t))] ∧
    parse_command pf ["navigate", t] flags id =
      some [("id", JVal.str id), ("action", JVal.str "navigate"),
        ("url", JVal.str (if str_starts_with t "http" then t else "https://" ++ t))] := by
  refine ⟨?_, ?_, ?_⟩ <;> rfl

/-- C5: `storage local set <key>` with the value token missing produces no
request at all — the translator's failure channel (`None`) — for every
key; in particular no request carrying a null value field exists for it. -/
theorem storage_set_missing_value (pf : String → Option F64) (flags : Flags)
    (id k : String) :
    parse_command pf ["storage", "local", "set", k] flags id = none := by
  rfl

/-- C6 counterexample: `scroll down abc` carries a present-but-invalid
amount token (`abc` does not parse as `i32`), yet the translator produces
a request with the default amount 300 silently substituted instead of a
distinct parse error. -/
theorem scroll_invalid_amount_counterexample :
    rust_parse_i32 "abc" = none ∧
    parse_command pf0 ["scroll", "down", "abc"] flags0 "r1" =
      some [("id", JVal.str "r1"), ("action", JVal.str "scroll"),
        ("direction", JVal.str "down"), ("amount", JVal.num 300)] := by
  exact ⟨by rfl, by rfl⟩

/-- C6 (amended): for the optional numeric arguments of `scroll` and
`mouse wheel`, the stated default is applied both when the token is
entirely absent and when a token is present but invalid for the
argument's type — an invalid token is treated like an absent one, not
reported as a distinct error. -/
theorem optional_numeric_defaults (pf : String → Option F64) (flags : Flags)
    (id : String) :
    (parse_command pf ["scroll"] flags id =
      some [("id", JVal.str id), ("action", JVal.str "scroll"),
        ("direction", JVal.str "down"), ("amount", JVal.num 300)]) ∧
    (∀ d a, rust_parse_i32 a = none →
      parse_command pf ["scroll", d, a] flags id =
        some [("id", JVal.str id), ("action", JVal.str "scroll"),
          ("direction", JVal.str d), ("amount", JVal.num 300)]) ∧
    (∀ a, rust_parse_i32 a = none →
      parse_command pf ["mouse", "wheel", a] flags id =
        some [("id", JVal.str id), ("action", JVal.str "mousewheel"),
          ("deltaX", JVal.num 0), ("deltaY", JVal.num 100)]) := by
  refine ⟨by rfl, ?_, ?_⟩
  · intro d a h
    simp [parse_command, h]
  · intro a h
    simp [parse_command, h]

/-- Witness for the amended C6 theorem at concrete inputs. -/
theorem optional_numeric_defaults_witness :
    parse_command pf0 ["scroll", "up", "fast"] flags0 "r1" =
      some [("id", JVal.str "r1"), ("action", JVal.str "scroll"),
        ("direction", JVal.str "up"), ("amount", JVal.num 300)] ∧
    parse_command pf0 ["mouse", "wheel", "fast"] flags0 "r1" =
      some [("id", JVal.str "r1"), ("action", JVal.str "mousewheel"),
        ("deltaX", JVal.num 0), ("deltaY", JVal.num 100)] :=
  ⟨(optional_numeric_defaults pf0 flags0 "r1").2.1 "up" "fast" (by rfl),
   (optional_numeric_defaults pf0 flags0 "r1").2.2 "fast" (by rfl)⟩

/-- C7: a single `wait` argument becomes a millisecond timeout exactly
when it parses fully as an unsigned 64-bit integer, otherwise it becomes
an element-wait selector; `wait` with no argument is a parse failure. -/
theorem wait_numeric_or_selector (pf : String → Option F64) (flags : Flags)
    (id : String) :
    (∀ arg n, rust_parse_u64 arg = some n →
      parse_command pf ["wait", arg] flags id =
        some [("id", JVal.str id), ("action", JVal.str "wait"),
          ("timeout", JVal.num (Int.ofNat n))]) ∧
    (∀ arg, rust_parse_u64 arg = none →
      parse_command pf ["wait", arg] flags id =
        some [("id", JVal.str id), ("action", JVal.str "wait"),
          ("selector", JVal.str arg)]) ∧
    parse_command pf ["wait"] flags id = none := by
  refine ⟨?_, ?_, by rfl⟩
  · intro arg n h
    simp [parse_command, h]
  · intro arg h
    simp [parse_command, h]

/-- Witness for the C7 theorem at concrete inputs. -/
theorem wait_numeric_or_selector_witness :
    parse_command pf0 ["wait", "500"] flags0 "r1" =
      some [("id", JVal.str "r1"), ("action", JVal.str "wait"),
        ("timeout", JVal.num 500)] ∧
    parse_command pf0 ["wait", "#login"] flags0 "r1" =
      some [("id", JVal.str "r1"), ("action", JVal.str "wait"),
        ("selector", JVal.str "#login")] :=
  ⟨(wait_numeric_or_selector pf0 flags0 "r1").1 "500" 500 (by rfl),
   (wait_numeric_or_selector pf0 flags0 "r1").2.1 "#login" (by rfl)⟩

/-- C10 counterexample: `nth` is a locator recognized by `parse_find`, and
`find nth 2` supplies it with a value token and no sub-action token, yet
no request is produced at all (the `nth` arm additionally requires a
selector token), so no `click` is defaulted. -/
theorem find_nth_counterexample :
    parse_command pf0 ["find", "nth", "2"] flags0 "r1" = none := by rfl

/-- C10 (amended): for the `find` verb with a recognized locator other
than `nth`, a value token, and no sub-action token, the sub-action
defaults to `click`; the `nth` locator additionally requires a selector
token after its index and yields no request when only a value token is
given. -/
theorem find_defaults_to_click (pf : String → Option F64) (flags : Flags)
    (id : String) :
    (∀ loc v, loc ∈ ["role", "text", "label", "placeholder", "alt", "title",
        "testid", "first", "last"] →
      ∃ req, parse_command pf ["find", loc, v] flags id = some req ∧
        ("subaction", JVal.str "click") ∈ req) ∧
    (∀ v, parse_command pf ["find", "nth", v] flags id = none) := by
  constructor
  · intro loc v hloc
    fin_cases hloc <;> exact ⟨_, rfl, by simp⟩
  · intro v
    show parse_find ["nth", v] id = none
    simp only [parse_find]
    cases h : rust_parse_i32 v <;> simp [h]

/-- Witness for the amended C10 theorem at concrete inputs. -/
theorem find_defaults_to_click_witness :
    (∃ req, parse_command pf0 ["find", "role", "button"] flags0 "r1" = some req ∧
      ("subaction", JVal.str "click") ∈ req) ∧
    parse_command pf0 ["find", "nth", "7"] flags0 "r1" = none :=
  ⟨(find_defaults_to_click pf0 flags0 "r1").1 "role" "button" (by simp),
   (find_defaults_to_click pf0 flags0 "r1").2 "7"⟩

/-- C1: the dispatcher's retry decision.  A first-attempt error outside
the transient signature set is surfaced as-is, untouched by the retry
machinery (zero retries, no retry-count annotation); a first-attempt
error inside the set causes a second attempt whose success is returned.
`is_transient_error` is transcribed from the code's closed signature
list: would-block / resource-temporarily-unavailable (os errors 35, 11),
EOF and empty-parse (`line 1 column 0`), connection-reset (os errors 54,
104), broken-pipe, socket-not-found (os error 2), connection-refused (os
errors 61, 111). -/
theorem send_command_retries_iff_transient :
    (∀ oracle e, oracle 0 = Except.error e → is_transient_error e = false →
      send_command oracle = Except.error e) ∧
    (∀ oracle e r, oracle 0 = Except.error e → is_transient_error e = true →
      oracle 1 = Except.ok r → send_command oracle = Except.ok r) := by
  constructor
  · intro oracle e h0 ht
    rw [send_command, send_command_go]
    simp [h0, ht, MAX_RETRIES]
  · intro oracle e r h0 ht h1
    rw [send_command, send_command_go]
    simp only [MAX_RETRIES, h0, ht, if_true]
    rw [send_command_go]
    simp [h1, MAX_RETRIES]

/-- The all-attempts-fail oracle for the non-transient witness. -/
def oracleDenied : Nat → Except String Response :=
  fun _ => Except.error "Permission denied"

/-- A successful response value for witnesses. -/
def respOk : Response := ⟨true, none, none⟩

/-- Transient first failure, success on the second attempt. -/
def oracleRecovers : Nat → Except String Response :=
  fun n => if n = 0 then Except.error "Broken pipe" else Except.ok respOk

/-- Witness for the C1 theorem: `Permission denied` is surfaced
immediately; a broken pipe is retried and the second attempt's response
is returned. -/
theorem send_command_retries_iff_transient_witness :
    send_command oracleDenied = Except.error "Permission denied" ∧
    send_command oracleRecovers = Except.ok respOk :=
  ⟨send_command_retries_iff_transient.1 oracleDenied "Permission denied" rfl rfl,
   send_command_retries_iff_transient.2 oracleRecovers "Broken pipe" respOk rfl rfl rfl⟩

theorem chars_contain_here (b c : List Char) : chars_contain (b ++ c) b = true := by
  have h : b.isPrefixOf (b ++ c) = true := by
    rw [List.isPrefixOf_iff_prefix]
    exact List.prefix_append b c
  rw [chars_contain.eq_def, h, Bool.true_or]

theorem chars_contain_cons (x : Char) (hay needle : List Char)
    (h : chars_contain hay needle = true) : chars_contain (x :: hay) needle = true := by
  rw [chars_contain.eq_def]
  simp [h]

theorem chars_contain_prepend (x hay needle : List Char)
    (h : chars_contain hay needle = true) : chars_contain (x ++ hay) needle = true := by
  induction x with
  | nil => exact h
  | cons a t ih => exact chars_contain_cons a _ _ ih

theorem str_contains_middle (A m B : String) : str_contains (A ++ (m ++ B)) m = true := by
  unfold str_contains
  have h : (A ++ (m ++ B)).toList = A.toList ++ (m.toList ++ B.toList) := by
    simp [String.toList, String.data_append]
  rw [h]
  exact chars_contain_prepend _ _ _ (chars_contain_here _ _)

theorem str_contains_right (A B m : String) (h : str_contains B m = true) :
    str_contains (A ++ B) m = true := by
  unfold str_contains at h ⊢
  have h2 : (A ++ B).toList = A.toList ++ B.toList := by
    simp [String.toList, String.data_append]
  rw [h2]
  exact chars_contain_prepend _ _ _ h

theorem msg_states_length (s : String) (n : Nat) :
    str_contains (socket_path_too_long_msg s n) (toString n) = true := by
  unfold socket_path_too_long_msg
  have h : "Session name '" ++ s ++ "' is too long. Socket path would be " ++
      toString n ++ " bytes (max 103).\n" ++
      "Use a shorter session name or set AGENT_BROWSER_SOCKET_DIR to a shorter path." =
      ("Session name '" ++ (s ++ "' is too long. Socket path would be ")) ++
        (toString n ++ (" bytes (max 103).\n" ++
          "Use a shorter session name or set AGENT_BROWSER_SOCKET_DIR to a shorter path.")) := by
    simp [String.append_assoc]
  rw [h]
  exact str_contains_middle _ _ _

theorem msg_states_limit (s : String) (n : Nat) :
    str_contains (socket_path_too_long_msg s n) "max 103" = true := by
  unfold socket_path_too_long_msg
  have h0 : str_contains (" bytes (max 103).\n" ++
      "Use a shorter session name or set AGENT_BROWSER_SOCKET_DIR to a shorter path.")
      "max 103" = true := by rfl
  have h1 := str_contains_right (toString n) _ _ h0
  have h2 := str_contains_right "' is too long. Socket path would be " _ _ h1
  have h3 := str_contains_right s _ _ h2
  have h4 := str_contains_right "Session name '" _ _ h3
  have heq : "Session name '" ++ s ++ "' is too long. Socket path would be " ++
      toString n ++ " bytes (max 103).\n" ++
      "Use a shorter session name or set AGENT_BROWSER_SOCKET_DIR to a shorter path." =
      "Session name '" ++ (s ++ ("' is too long. Socket path would be " ++
        (toString n ++ (" bytes (max 103).\n" ++
          "Use a shorter session name or set AGENT_BROWSER_SOCKET_DIR to a shorter path.")))) := by
    simp [String.append_assoc]
  rw [heq]
  exact h4

/-- C2: the supervisor's probe contract.  (1) The recheck delay exceeds
the worker's shutdown grace period.  (2) With a liveness marker, a
responsive endpoint, and a still-responsive endpoint after the recheck
delay, `ensure_daemon` reports `already_running = true` with an empty
effect trace — in particular no spawn.  (3) With a marker but an
unresponsive endpoint the stale artifacts are removed, and (4) under
successful preflights, spawn and readiness poll, the result is
`already_running = false` with the clean-spawn trace. -/
theorem ensure_daemon_probe_contract :
    recheck_delay_ms > shutdown_grace_ms ∧
    (∀ s env, env.markerLive = true → env.readyFirst = true →
      env.readyRecheck = true →
      ensure_daemon s env = (Except.ok ⟨true⟩, [])) ∧
    (∀ s env, env.markerLive = true → env.readyFirst = false →
      Effect.cleanupStaleFiles ∈ (ensure_daemon s env).2) ∧
    (∀ s env, env.markerLive = true → env.readyFirst = false →
      env.dirExists = true →
      (socket_path env s).utf8ByteSize ≤ 103 →
      env.writeTestOk = true → env.currentExeOk = true →
      env.daemonFound = true → env.spawnOk = true →
      (List.range 50).any env.readyPoll = true →
      ensure_daemon s env = (Except.ok ⟨false⟩,
        [Effect.cleanupStaleFiles, Effect.writeProbe, Effect.spawnDaemon])) := by
  refine ⟨by decide, ?_, ?_, ?_⟩
  · intro s env h1 h2 h3
    simp [ensure_daemon, h1, h2, h3]
  · intro s env h1 h2
    have hred : ensure_daemon s env = ensure_daemon_start s env := by
      simp [ensure_daemon, h2]
    rw [hred]
    simp only [ensure_daemon_start]
    repeat' split
    all_goals simp
  · intro s env h1 h2 h3 h4 h5 h6 h7 h8 h9
    have hred : ensure_daemon s env = ensure_daemon_start s env := by
      simp [ensure_daemon, h2]
    have hlen : ¬ ((socket_path env s).utf8ByteSize > 103) := by omega
    rw [hred]
    simp [ensure_daemon_start, h3, hlen, h5, h6, h7, h8, h9]

/-- Marker present, endpoint dead, everything else cooperative: the
clean-and-respawn environment used as the C2 witness. -/
def envRespawn : EnsureEnv :=
  ⟨true, false, false, "/tmp/agent-browser", true, true, "", true, "", true, "",
    true, true, "", fun _ => true⟩

/-- Witness for the C2 theorem at concrete environments. -/
theorem ensure_daemon_probe_contract_witness :
    ensure_daemon "default" envOk = (Except.ok ⟨true⟩, []) ∧
    Effect.cleanupStaleFiles ∈ (ensure_daemon "default" envRespawn).2 ∧
    ensure_daemon "default" envRespawn = (Except.ok ⟨false⟩,
      [Effect.cleanupStaleFiles, Effect.writeProbe, Effect.spawnDaemon]) :=
  ⟨ensure_daemon_probe_contract.2.1 "default" envOk rfl rfl rfl,
   ensure_daemon_probe_contract.2.2.1 "default" envRespawn rfl rfl,
   ensure_daemon_probe_contract.2.2.2 "default" envRespawn rfl rfl rfl (by decide)
     rfl rfl rfl rfl (by rfl)⟩

/-- C4: whenever the pre-spawn path of `ensure_daemon` is reached (the
probe did not report an already-running worker) and the artifact
directory is available, a derived socket path longer than 103 usable
bytes is rejected with the diagnostic that states the byte length and the
103-byte limit, and no worker process is spawned. -/
theorem ensure_daemon_rejects_long_socket_path (s : String) (env : EnsureEnv)
    (hprobe : env.markerLive = false ∨ env.readyFirst = false ∨ env.readyRecheck = false)
    (hdir : env.dirExists = true ∨ env.createDirOk = true)
    (hlen : 103 < (socket_path env s).utf8ByteSize) :
    (ensure_daemon s env).1 =
      Except.error (socket_path_too_long_msg s (socket_path env s).utf8ByteSize) ∧
    str_contains (socket_path_too_long_msg s (socket_path env s).utf8ByteSize)
      (toString (socket_path env s).utf8ByteSize) = true ∧
    str_contains (socket_path_too_long_msg s (socket_path env s).utf8ByteSize)
      "max 103" = true ∧
    Effect.spawnDaemon ∉ (ensure_daemon s env).2 := by
  have hred : ensure_daemon s env = ensure_daemon_start s env := by
    rcases hprobe with h | h | h <;> simp [ensure_daemon, h]
  have hc1 : ¬ (env.dirExists = false ∧ env.createDirOk = false) := by
    rcases hdir with h | h <;> simp [h]
  have hpair : ensure_daemon_start s env =
      (Except.error (socket_path_too_long_msg s (socket_path env s).utf8ByteSize),
        Effect.cleanupStaleFiles ::
          (if env.dirExists = true then [] else [Effect.createDir])) := by
    simp [ensure_daemon_start, hc1, hlen]
  refine ⟨?_, msg_states_length s _, msg_states_limit s _, ?_⟩
  · rw [hred, hpair]
  · rw [hred, hpair]
    cases henv : env.dirExists <;> simp [henv]

/-- A session name of 100 bytes, long enough to overflow the socket-path
limit under any ordinary runtime directory. -/
def longSession : String :=
  "aaaaaaaaaaaaaaaaaaaaaaaaaaaaaaaaaaaaaaaaaaaaaaaaaaaaaaaaaaaaaaaaaaaaaaaaaaaaaaaaaaaaaaaaaaaaaaaaaa"

/-- Non-running daemon, cooperative filesystem: the C4 witness
environment. -/
def envLong : EnsureEnv :=
  ⟨false, false, false, "/tmp/agent-browser", true, true, "", true, "", true, "",
    true, true, "", fun _ => false⟩

/-- Witness for the C4 theorem at a concrete over-long session name. -/
theorem ensure_daemon_rejects_long_socket_path_witness :
    (ensure_daemon longSession envLong).1 =
      Except.error (socket_path_too_long_msg longSession
        (socket_path envLong longSession).utf8ByteSize) ∧
    str_contains (socket_path_too_long_msg longSession
      (socket_path envLong longSession).utf8ByteSize)
      (toString (socket_path envLong longSession).utf8ByteSize) = true ∧
    str_contains (socket_path_too_long_msg longSession
      (socket_path envLong longSession).utf8ByteSize) "max 103" = true ∧
    Effect.spawnDaemon ∉ (ensure_daemon longSession envLong).2 :=
  ensure_daemon_rejects_long_socket_path longSession envLong (Or.inl rfl)
    (Or.inl rfl) (by decide)

/-- Mask the value of the correlation-id field of one request entry. -/
def mask_id_kv (kv : String × JVal) : String × JVal :=
  if kv.1 = "id" then (kv.1, JVal.null) else kv

theorem mask_id_kv_eval (k : String) (v : JVal) :
    mask_id_kv (k, v) = if k = "id" then (k, JVal.null) else (k, v) := by
  simp [mask_id_kv]

/-- A parse result up to the correlation id: the id value is nulled, all
other bytes kept. -/
def mask_id (r : Option Request) : Option Request :=
  r.map (List.map mask_id_kv)

theorem map_mask_objInsert (o : Request) (k : String) (v : JVal) (hk : ¬ k = "id") :
    List.map mask_id_kv (objInsert o k v) = objInsert (List.map mask_id_kv o) k v := by
  induction o with
  | nil =>
    simp only [List.map_nil]
    have e1 : objInsert ([] : Request) k v = [(k, v)] := by simp [objInsert]
    rw [e1, List.map_cons, List.map_nil, mask_id_kv_eval k v, if_neg hk]
  | cons kv rest ih =>
    obtain ⟨k', v'⟩ := kv
    by_cases h : k' = k
    · subst h
      have e1 : objInsert ((k', v') :: rest) k' v = (k', v) :: rest := by
        simp [objInsert]
      rw [e1, List.map_cons, List.map_cons, mask_id_kv_eval k' v,
        mask_id_kv_eval k' v', if_neg hk, if_neg hk]
      have e2 : objInsert ((k', v') :: List.map mask_id_kv rest) k' v =
          (k', v) :: List.map mask_id_kv rest := by simp [objInsert]
      rw [e2]
    · by_cases h2 : k' = "id"
      · subst h2
        have e1 : objInsert (("id", v') :: rest) k v =
            ("id", v') :: objInsert rest k v := by simp [objInsert, h]
        rw [e1, List.map_cons, List.map_cons, mask_id_kv_eval "id" v',
          if_pos rfl, ih]
        have e2 : objInsert (("id", JVal.null) :: List.map mask_id_kv rest) k v =
            ("id", JVal.null) :: objInsert (List.map mask_id_kv rest) k v := by
          simp [objInsert, h]
        rw [e2]
      · have e1 : objInsert ((k', v') :: rest) k v =
            (k', v') :: objInsert rest k v := by simp [objInsert, h]
        rw [e1, List.map_cons, List.map_cons, mask_id_kv_eval k' v',
          if_neg h2, ih]
        have e2 : objInsert ((k', v') :: List.map mask_id_kv rest) k v =
            (k', v') :: objInsert (List.map mask_id_kv rest) k v := by
          simp [objInsert, h]
        rw [e2]

theorem map_mask_snapshot_loop_aux :
    ∀ n rest, List.length rest ≤ n → ∀ o : Request,
      List.map mask_id_kv (snapshot_loop o rest) =
        snapshot_loop (List.map mask_id_kv o) rest := by
  intro n
  induction n with
  | zero =>
    intro rest h o
    have hnil : rest = [] := List.length_eq_zero.mp (Nat.le_zero.mp h)
    subst hnil
    rfl
  | succ n ih =>
    intro rest h o
    match rest with
    | [] => rfl
    | t :: rest' =>
      have hlen : rest'.length ≤ n := by
        simp only [List.length_cons] at h
        omega
      conv_lhs => rw [snapshot_loop.eq_def]
      conv_rhs => rw [snapshot_loop.eq_def]
      dsimp only
      split_ifs with h1 h2 h3 h4
      · rw [ih rest' hlen, map_mask_objInsert _ _ _ (by simp)]
      · rw [ih rest' hlen, map_mask_objInsert _ _ _ (by simp)]
      · match rest' with
        | [] => rfl
        | d :: rest2 =>
          cases hp : rust_parse_i32 d with
          | some m =>
            try simp only [hp]
            have hlen2 : rest2.length ≤ n := by
              simp only [List.length_cons] at hlen
              omega
            rw [ih rest2 hlen2, map_mask_objInsert _ _ _ (by simp)]
          | none =>
            try simp only [hp]
            exact ih (d :: rest2) hlen o
      · match rest' with
        | [] => rfl
        | s :: rest2 =>
          have hlen2 : rest2.length ≤ n := by
            simp only [List.length_cons] at hlen
            omega
          rw [ih rest2 hlen2, map_mask_objInsert _ _ _ (by simp)]
      · exact ih rest' hlen o

theorem map_mask_snapshot_loop (o : Request) (rest : List String) :
    List.map mask_id_kv (snapshot_loop o rest) =
      snapshot_loop (List.map mask_id_kv o) rest :=
  map_mask_snapshot_loop_aux rest.length rest (Nat.le_refl _) o

theorem mask_parse_find (rest : List String) (id1 id2 : String) :
    mask_id (parse_find rest id1) = mask_id (parse_find rest id2) := by
  simp only [parse_find]
  repeat' split
  all_goals first
    | rfl
    | simp [mask_id, mask_id_kv_eval]

theorem mask_parse_set (pf : String → Option F64) (rest : List String)
    (id1 id2 : String) :
    mask_id (parse_set pf rest id1) = mask_id (parse_set pf rest id2) := by
  simp only [parse_set]
  repeat' split
  all_goals first
    | rfl
    | simp [mask_id, mask_id_kv_eval]

/-- C8: the translator is a pure function of its inputs, and the
correlation id (the one impure ingredient, threaded in explicitly) only
ever lands in the `id` field: translations of the same token list and
options under two different generated ids are byte-identical once the
`id` value is masked.  Determinism and freedom from side effects hold by
construction: `parse_command` is a total function of its arguments. -/
theorem parse_command_deterministic_mod_id (pf : String → Option F64)
    (args : List String) (flags : Flags) (id1 id2 : String) :
    mask_id (parse_command pf args flags id1) =
      mask_id (parse_command pf args flags id2) := by
  cases args with
  | nil => rfl
  | cons cmd rest =>
    simp only [parse_command]
    split
    all_goals first
      | rfl
      | apply mask_parse_find
      | apply mask_parse_set
      | ((repeat' split) <;>
          simp [mask_id, mask_id_kv_eval, map_mask_snapshot_loop, objInsert])

theorem mem_keys_objInsert (o : Request) (k k' : String) (v : JVal)
    (h : k' ∈ o.map Prod.fst) : k' ∈ (objInsert o k v).map Prod.fst := by
  induction o with
  | nil => simp at h
  | cons kv rest ih =>
    obtain ⟨k0, v0⟩ := kv
    rw [List.map_cons, List.mem_cons] at h
    by_cases he : k0 = k
    · subst he
      have e : objInsert ((k0, v0) :: rest) k0 v = (k0, v) :: rest := by
        simp [objInsert]
      rw [e, List.map_cons, List.mem_cons]
      exact h
    · have e : objInsert ((k0, v0) :: rest) k v = (k0, v0) :: objInsert rest k v := by
        simp [objInsert, he]
      rw [e, List.map_cons, List.mem_cons]
      rcases h with h | h
      · exact Or.inl h
      · exact Or.inr (ih h)

theorem mem_keys_snapshot_loop_aux :
    ∀ n rest, List.length rest ≤ n → ∀ (o : Request) (k : String),
      k ∈ o.map Prod.fst → k ∈ (snapshot_loop o rest).map Prod.fst := by
  intro n
  induction n with
  | zero =>
    intro rest h o k hk
    have hnil : rest = [] := List.length_eq_zero.mp (Nat.le_zero.mp h)
    subst hnil
    exact hk
  | succ n ih =>
    intro rest h o k hk
    match rest with
    | [] => exact hk
    | t :: rest' =>
      have hlen : rest'.length ≤ n := by
        simp only [List.length_cons] at h
        omega
      rw [snapshot_loop.eq_def]
      dsimp only
      split_ifs with h1 h2 h3 h4
      · exact ih rest' hlen _ k (mem_keys_objInsert _ _ _ _ hk)
      · exact ih rest' hlen _ k (mem_keys_objInsert _ _ _ _ hk)
      · match rest' with
        | [] => exact hk
        | d :: rest2 =>
          cases hp : rust_parse_i32 d with
          | some m =>
            try simp only [hp]
            have hlen2 : rest2.length ≤ n := by
              simp only [List.length_cons] at hlen
              omega
            exact ih rest2 hlen2 _ k (mem_keys_objInsert _ _ _ _ hk)
          | none =>
            try simp only [hp]
            exact ih (d :: rest2) hlen o k hk
      · match rest' with
        | [] => exact hk
        | s :: rest2 =>
          have hlen2 : rest2.length ≤ n := by
            simp only [List.length_cons] at hlen
            omega
          exact ih rest2 hlen2 _ k (mem_keys_objInsert _ _ _ _ hk)
      · exact ih rest' hlen o k hk

theorem mem_keys_snapshot_loop (k : String) (o : Request) (rest : List String)
    (h : k ∈ o.map Prod.fst) : k ∈ (snapshot_loop o rest).map Prod.fst :=
  mem_keys_snapshot_loop_aux rest.length rest (Nat.le_refl _) o k h

theorem keys_parse_find (rest : List String) (id : String) (req : Request)
    (h : parse_find rest id = some req) :
    "id" ∈ req.map Prod.fst ∧ "action" ∈ req.map Prod.fst := by
  simp only [parse_find] at h
  repeat' split at h
  all_goals first
    | exact Option.noConfusion h
    | (injection h with h2; subst h2; exact ⟨by simp, by simp⟩)

theorem keys_parse_set (pf : String → Option F64) (rest : List String)
    (id : String) (req : Request) (h : parse_set pf rest id = some req) :
    "id" ∈ req.map Prod.fst ∧ "action" ∈ req.map Prod.fst := by
  simp only [parse_set] at h
  repeat' split at h
  all_goals first
    | exact Option.noConfusion h
    | (injection h with h2; subst h2; exact ⟨by simp, by simp⟩)

/-- C9: every request the translator produces is a flat top-level map
(an association list by construction) that contains both an `id` and an
`action` field, whatever the token list and global options were. -/
theorem parse_command_has_id_and_action (pf : String → Option F64)
    (args : List String) (flags : Flags) (id : String) (req : Request)
    (h : parse_command pf args flags id = some req) :
    "id" ∈ req.map Prod.fst ∧ "action" ∈ req.map Prod.fst := by
  cases args with
  | nil => cases h
  | cons cmd rest =>
    simp only [parse_command] at h
    repeat' split at h
    all_goals first
      | exact Option.noConfusion h
      | exact keys_parse_find _ _ _ h
      | exact keys_parse_set _ _ _ _ h
      | (injection h with h2; subst h2;
          exact ⟨mem_keys_snapshot_loop _ _ _ (by simp),
            mem_keys_snapshot_loop _ _ _ (by simp)⟩)
      | (injection h with h2; subst h2;
          exact ⟨by simp [objInsert], by simp [objInsert]⟩)

/-- Witness for the C9 theorem at a concrete command. -/
theorem parse_command_has_id_and_action_witness :
    "id" ∈ ([("id", JVal.str "r1"), ("action", JVal.str "back")] : Request).map Prod.fst ∧
    "action" ∈ ([("id", JVal.str "r1"), ("action", JVal.str "back")] : Request).map Prod.fst :=
  parse_command_has_id_and_action pf0 ["back"] flags0 "r1"
    [("id", JVal.str "r1"), ("action", JVal.str "back")] rfl

end AgentBrowser
